import Mathlib

/-!
# Cart, checkout and payment-signing handlers of `backend/controllers/cart.go`

A shallow embedding of the gin handlers `AddToCart`, `RemoveItem`,
`GetItemsFromCart`, `BuyFromCart` and `PaymentOrders`.  A handler is a pure
function from the request and the results of the library calls it makes to the
ordered list of effects it performs, the way it ends, and the new content of the
collection it writes.

Go strings are modelled by `String`, `uint64` values by `Nat`, byte slices by
`List Nat`.
-/

set_option autoImplicit false

namespace Backend

/-! ## Data model -/

/-- Twelve-byte identifier `primitive.ObjectID`, as the list of its bytes. -/
abbrev ObjectID := List Nat

/-- Cart line `models.ProductUser`: the product reference and the price captured
when the product was added. -/
structure ProductUser where
  ProductID : ObjectID
  Price : Nat
  deriving DecidableEq, Repr

/-- The values the handlers store in the untyped `Msg` and `Data` fields of the
response envelope. -/
inductive Value where
  | null
  | str (s : String)
  | num (n : Nat)
  | cart (items : List ProductUser)
  deriving DecidableEq, Repr

/-- Response envelope `models.Response`. -/
structure Response where
  Status : String
  Code : Nat
  Msg : Value
  Data : Value
  deriving DecidableEq, Repr

/-- Payment payload `models.Payload`: the fields `PaymentOrders` reads and writes. -/
structure Payload where
  PartnerCode : String
  AccessKey : String
  RequestID : String
  Amount : Nat
  OrderID : String
  OrderInfo : String
  RedirectUrl : String
  IpnUrl : String
  ExtraData : String
  RequestType : String
  Signature : String
  deriving DecidableEq, Repr

/-- How a handler ends: it returns to gin, it panics, or it ends the whole
process (`log.Fatalln` calls `os.Exit(1)`). -/
inductive Exit where
  | returned
  | panicked
  | osExit (code : Nat)
  deriving DecidableEq, Repr

/-- One observable step of a handler, in source order. -/
inductive Effect where
  | logPrintln (msg : String)
  | fmtPrintln (msg : String)
  | fmtPrintlnResult (result : List (String × Value))
  | fmtPrintlnPayUrl (v : Value)
  | logPanicln (msg : String)
  | logFatalln (msg : String)
  | header (key value : String)
  | abort
  | abortWithError (code : Nat) (msg : String)
  | abortWithStatus (code : Nat)
  | indentedJSON (code : Nat) (r : Response)
  | hmacWrite (key msg : String)
  | httpPost (endpoint contentType : String) (body : List Nat)
  | insertOne (doc : Payload)
  | addProductToCart (productId : ObjectID) (userId : String)
  | removeCartItem (productId : ObjectID) (userId : String)
  | buyItemFromCart (userId : String)
  deriving DecidableEq, Repr

/-- The response envelopes a list of effects writes, in order, with their codes. -/
def responses : List Effect → List (Nat × Response)
  | [] => []
  | Effect.indentedJSON c r :: es => (c, r) :: responses es
  | _ :: es => responses es

/-! ## Library functions used by the signing path -/

/-- Go `strconv.FormatUint(i, base)` for `2 ≤ base ≤ 16`: the digits of `i`, most
significant first, letters in lower case. -/
def FormatUint (i : Nat) (base : Nat) : String :=
  String.mk (Nat.toDigits base i)

/-- Go `hex.EncodeToString`: two characters of `"0123456789abcdef"` per byte,
`hextable[v>>4]` then `hextable[v&0x0f]`; for a byte `v`, `v>>4` is `v / 16 % 16`. -/
def EncodeToString : List Nat → String
  | [] => ""
  | v :: vs =>
    String.mk [Nat.digitChar (v / 16 % 16), Nat.digitChar (v % 16)] ++ EncodeToString vs

/-- Go `bytes.Buffer`, holding text. -/
structure Buffer where
  buf : String
  deriving DecidableEq, Repr

/-- The zero value `var b bytes.Buffer`. -/
def Buffer.empty : Buffer := { buf := "" }

/-- Go `(*Buffer).WriteString`: appends at the end. -/
def Buffer.WriteString (b : Buffer) (s : String) : Buffer := { buf := b.buf ++ s }

/-- Go `(*Buffer).String`. -/
def Buffer.String (b : Buffer) : String := b.buf

/-! ## `PaymentOrders` -/

/-- Literal of line 271. -/
def secretKey : String := "PIAHFSUXSXISQXS2wrdpH0Vl1d7sdGTO"

/-- Literal of line 319. -/
def endpoint : String := "https://test-payment.momo.vn/v2/gateway/api/create"

/-- Lines 272-278: the request id and the static partner fields overwrite what the
request body carried. -/
def fillFields (payload : Payload) (requestId : String) : Payload :=
  { payload with
    RequestID := requestId
    ExtraData := ""
    PartnerCode := "MOMOIHKM20221002"
    AccessKey := "rq9CyDN11E1Z56iT"
    RequestType := "captureWallet"
    RedirectUrl := "http://localhost:8000/user/view-payment"
    IpnUrl := "http://localhost:8000/user/view-payment" }

/-- Lines 280-300: the twenty `WriteString` calls on `rawSignature`. -/
def rawSignature (payload : Payload) : Buffer :=
  let b := Buffer.empty
  let b := b.WriteString "accessKey="
  let b := b.WriteString payload.AccessKey
  let b := b.WriteString "&amount="
  let b := b.WriteString (FormatUint payload.Amount 10)
  let b := b.WriteString "&extraData="
  let b := b.WriteString payload.ExtraData
  let b := b.WriteString "&ipnUrl="
  let b := b.WriteString payload.IpnUrl
  let b := b.WriteString "&orderId="
  let b := b.WriteString payload.OrderID
  let b := b.WriteString "&orderInfo="
  let b := b.WriteString payload.OrderInfo
  let b := b.WriteString "&partnerCode="
  let b := b.WriteString payload.PartnerCode
  let b := b.WriteString "&redirectUrl="
  let b := b.WriteString payload.RedirectUrl
  let b := b.WriteString "&requestId="
  let b := b.WriteString payload.RequestID
  let b := b.WriteString "&requestType="
  let b := b.WriteString payload.RequestType
  b

/-- The results of the library calls one `PaymentOrders` request makes. -/
structure PayEnv where
  /-- Result of `c.BindJSON(&payload)`: the error text, or the decoded body. -/
  bindJSON : Except String Payload
  /-- The pair `flake.NextID()` returns on the generator built at line 267. -/
  nextID : Nat × Option String
  /-- Digest of `hmac.New(sha256.New, key)` after `Write(msg)`: `Sum(nil)`. -/
  hmacSum : String → String → List Nat
  /-- The pair `json.Marshal(payload)` returns. -/
  jsonMarshal : Payload → List Nat × Option String
  /-- Result of `http.Post`: the error text, or the response body. -/
  httpPost : String → String → List Nat → Except String (List Nat)
  /-- Result of decoding the response body into `map[string]interface{}`. -/
  decode : List Nat → Except String (List (String × Value))
  /-- Error of `PayloadCollection.InsertOne`, if any. -/
  insertOne : Payload → Option String

/-- What a run of `PaymentOrders` leaves behind. -/
structure PayRun where
  effects : List Effect
  exit : Exit
  ledger : List Payload

/-- Go map index `result[key]`: the zero value (nil) when the key is absent. -/
def mapIndex (result : List (String × Value)) (key : String) : Value :=
  match result.find? (fun kv => kv.1 == key) with
  | some kv => kv.2
  | none => Value.null

/-- Lines 309-311: the payload with its signature field set. -/
def signedPayload (hmacSum : String → String → List Nat) (payload : Payload) : Payload :=
  { payload with Signature := EncodeToString (hmacSum secretKey (rawSignature payload).String) }

/-- Handler `PaymentOrders`, lines 254-350, on the payload ledger `ledger`. -/
def PaymentOrders (env : PayEnv) (ledger : List Payload) : PayRun :=
  match env.bindJSON with
  | Except.error e =>
    { effects := [Effect.indentedJSON 400
        { Status := "Failed", Code := 400, Msg := Value.str e, Data := Value.null }]
      exit := Exit.returned
      ledger := ledger }
  | Except.ok body =>
    let a := env.nextID.1
    let requestId := FormatUint a 16
    let payload := fillFields body requestId
    let raw := rawSignature payload
    let payload := signedPayload env.hmacSum payload
    let signing := [Effect.hmacWrite secretKey raw.String,
      Effect.fmtPrintln ("Raw signature: " ++ raw.String),
      Effect.fmtPrintln ("Signature: " ++ payload.Signature)]
    let marshalled := env.jsonMarshal payload
    let jsonPayload := marshalled.1
    let logged := match marshalled.2 with
      | some e => [Effect.logPrintln e]
      | none => []
    let posted := [Effect.httpPost endpoint "application/json" jsonPayload]
    match env.httpPost endpoint "application/json" jsonPayload with
    | Except.error e =>
      { effects := signing ++ logged ++ posted ++ [Effect.logFatalln e]
        exit := Exit.osExit 1
        ledger := ledger }
    | Except.ok respBody =>
      match env.decode respBody with
      | Except.error e =>
        { effects := signing ++ logged ++ posted ++ [Effect.logFatalln e]
          exit := Exit.osExit 1
          ledger := ledger }
      | Except.ok result =>
        let res := mapIndex result "payUrl"
        let printed := [Effect.fmtPrintlnResult result, Effect.fmtPrintlnPayUrl res]
        match env.insertOne payload with
        | some _ =>
          { effects := signing ++ logged ++ posted ++ printed ++
              [Effect.insertOne payload,
               Effect.indentedJSON 500
                { Status := "Failed", Code := 500, Msg := Value.str "Not created",
                  Data := Value.null }]
            exit := Exit.returned
            ledger := ledger }
        | none =>
          { effects := signing ++ logged ++ posted ++ printed ++
              [Effect.insertOne payload,
               Effect.indentedJSON 200
                { Status := "OK", Code := 200,
                  Msg := Value.str "New payload has been successfully added",
                  Data := res }]
            exit := Exit.returned
            ledger := ledger ++ [payload] }


/-! ## Request-id generator -/

/-- Modelled from the spec: the generator state of section 4.4 (the sonyflake
library is not part of the sources): the fixed machine discriminator, the
last-used timestamp and the sequence counter of that timestamp. -/
structure Sonyflake where
  machineID : Nat
  lastTime : Option Nat
  sequence : Nat
  deriving DecidableEq, Repr

/-- Bits of the sequence counter in the 64-bit identifier. -/
def BitLenSequence : Nat := 8

/-- Bits of the machine discriminator in the 64-bit identifier. -/
def BitLenMachineID : Nat := 16

/-- Modelled from the spec: `sonyflake.NewSonyflake(sonyflake.Settings{})`, a
generator that has issued nothing yet. -/
def NewSonyflake (machineID : Nat) : Sonyflake :=
  { machineID := machineID, lastTime := none, sequence := 0 }

/-- Modelled from the spec: the identifier combining timestamp, sequence counter
and machine discriminator, as a 64-bit value. -/
def toID (time sequence machineID : Nat) : Nat :=
  (time * 2 ^ (BitLenSequence + BitLenMachineID) + sequence * 2 ^ BitLenMachineID
    + machineID) % 2 ^ 64

/-- Modelled from the spec: `NextID` of section 4.4 at clock reading `now` (in
time units of the generator).  The counter restarts at every new time unit and
increments within one; when it would overflow the generator waits for the next
unit; a clock behind the last-used timestamp is reported. -/
def Sonyflake.NextID (sf : Sonyflake) (now : Nat) : (Nat × Option String) × Sonyflake :=
  match sf.lastTime with
  | none =>
    ((toID now 0 sf.machineID, none), { sf with lastTime := some now, sequence := 0 })
  | some last =>
    if now < last then ((0, some "ClockSkew"), sf)
    else if last < now then
      ((toID now 0 sf.machineID, none), { sf with lastTime := some now, sequence := 0 })
    else if sf.sequence + 1 < 2 ^ BitLenSequence then
      ((toID last (sf.sequence + 1) sf.machineID, none),
        { sf with sequence := sf.sequence + 1 })
    else
      ((toID (last + 1) 0 sf.machineID, none),
        { sf with lastTime := some (last + 1), sequence := 0 })

/-- Lines 267-269: every request builds its own generator and takes its first
identifier. -/
def freshNextID (machineID now : Nat) : Nat × Option String :=
  ((NewSonyflake machineID).NextID now).1

/-! ## Cart handlers -/

/-- The all-zero identifier `primitive.NilObjectID`. -/
def NilObjectID : ObjectID := List.replicate 12 0

/-- Go `fromHexChar` of `encoding/hex`. -/
def fromHexChar (c : Char) : Option Nat :=
  if '0' ≤ c ∧ c ≤ '9' then some (c.toNat - '0'.toNat)
  else if 'a' ≤ c ∧ c ≤ 'f' then some (c.toNat - 'a'.toNat + 10)
  else if 'A' ≤ c ∧ c ≤ 'F' then some (c.toNat - 'A'.toNat + 10)
  else none

/-- Go `hex.DecodeString` on the characters of the text: one byte per pair, an
error on an odd length or a character that is no hex digit. -/
def DecodeString : List Char → Option (List Nat)
  | [] => some []
  | [_] => none
  | hi :: lo :: rest =>
    match fromHexChar hi, fromHexChar lo, DecodeString rest with
    | some a, some b, some bytes => some ((a * 16 + b) :: bytes)
    | _, _, _ => none

/-- Go `primitive.ObjectIDFromHex`: the identifier and the error, `NilObjectID`
with an error for a text that is not 24 hex characters. -/
def ObjectIDFromHex (s : String) : ObjectID × Option String :=
  if s.utf8ByteSize ≠ 24 then (NilObjectID, some "the provided hex string is not a valid ObjectID")
  else
    match DecodeString s.data with
    | some bytes => (bytes, none)
    | none => (NilObjectID, some "encoding/hex: invalid byte")

/-- What a run of a cart handler leaves behind. -/
structure CartRun where
  effects : List Effect
  exit : Exit
  deriving DecidableEq, Repr

/-- Handler `AddToCart`, lines 47-86.  `addProductToCart` is the error
`database.AddProductToCart` returns, if any. -/
def AddToCart (addProductToCart : ObjectID → String → Option String)
    (productQueryId userQueryId : String) : CartRun :=
  if productQueryId == "" then
    { effects := [Effect.logPrintln "product id is empty",
        Effect.abortWithError 400 "product id is empty"]
      exit := Exit.returned }
  else if userQueryId == "" then
    { effects := [Effect.logPrintln "user id is empty",
        Effect.abortWithError 400 "user id is empty"]
      exit := Exit.returned }
  else
    match ObjectIDFromHex productQueryId with
    | (_, some err) =>
      { effects := [Effect.logPrintln err, Effect.abortWithStatus 500]
        exit := Exit.returned }
    | (productId, none) =>
      match addProductToCart productId userQueryId with
      | some err =>
        { effects := [Effect.addProductToCart productId userQueryId,
            Effect.indentedJSON 500
              { Status := "Failed", Code := 500, Msg := Value.str err, Data := Value.null }]
          exit := Exit.returned }
      | none =>
        { effects := [Effect.addProductToCart productId userQueryId,
            Effect.indentedJSON 200
              { Status := "OK", Code := 200,
                Msg := Value.str "Successfully added to the cart", Data := Value.null }]
          exit := Exit.returned }

/-- Handler `RemoveItem`, lines 88-128.  The branch of lines 99-102 has no
`return`: after `AbortWithError` the handler goes on.  `removeCartItem` is the
error `database.RemoveCartItem` returns, if any. -/
def RemoveItem (removeCartItem : ObjectID → String → Option String)
    (productQueryId userQueryId : String) : CartRun :=
  if productQueryId == "" then
    { effects := [Effect.logPrintln "Missing product id",
        Effect.abortWithError 400 "Missing product id"]
      exit := Exit.returned }
  else
    let missingUser :=
      if userQueryId == "" then
        [Effect.logPrintln "Missing user id", Effect.abortWithError 400 "Missing user id"]
      else []
    match ObjectIDFromHex productQueryId with
    | (_, some err) =>
      { effects := missingUser ++ [Effect.logPrintln err, Effect.abortWithStatus 500]
        exit := Exit.returned }
    | (productId, none) =>
      match removeCartItem productId userQueryId with
      | some err =>
        { effects := missingUser ++ [Effect.removeCartItem productId userQueryId,
            Effect.indentedJSON 500
              { Status := "Failed", Code := 500, Msg := Value.str err, Data := Value.null }]
          exit := Exit.returned }
      | none =>
        { effects := missingUser ++ [Effect.removeCartItem productId userQueryId,
            Effect.indentedJSON 200
              { Status := "OK", Code := 200,
                Msg := Value.str "Successfully removed from cart", Data := Value.null }]
          exit := Exit.returned }

/-- User document `models.User`: the identifier and the cart. -/
structure User where
  ID : ObjectID
  UserCart : List ProductUser
  deriving DecidableEq, Repr

/-- Mongo `FindOne` with the filter `_id = id`, then `Decode`: the first matching
document, or none (`ErrNoDocuments`). -/
def FindOne (users : List User) (id : ObjectID) : Option User :=
  users.find? (fun u => u.ID == id)

/-- Stage `$match` of line 162: the documents whose `_id` is `id`. -/
def matchStage (id : ObjectID) (users : List User) : List User :=
  users.filter (fun u => u.ID == id)

/-- Stage `$unwind` of line 163 on the path `user_cart`: one document per cart
element; a document with an empty cart yields none. -/
def unwindStage (users : List User) : List (ObjectID × ProductUser) :=
  users.flatMap (fun u => u.UserCart.map (fun item => (u.ID, item)))

/-- Adds one unwound document to the groups built so far. -/
def addToGroup (groups : List (ObjectID × Nat)) (doc : ObjectID × ProductUser) :
    List (ObjectID × Nat) :=
  if groups.any (fun g => g.1 == doc.1) then
    groups.map (fun g => if g.1 == doc.1 then (g.1, g.2 + doc.2.Price) else g)
  else groups ++ [(doc.1, doc.2.Price)]

/-- Stage `$group` of line 164: one document per `_id`, whose `total` is the
`$sum` of `user_cart.price` over the group. -/
def groupStage (docs : List (ObjectID × ProductUser)) : List (ObjectID × Nat) :=
  docs.foldl addToGroup []

/-- Handler `GetItemsFromCart`, lines 130-186, on the user collection `users`, a
collection that answers every query (`Aggregate` and `All` return no error). -/
def GetItemsFromCart (users : List User) (userId : String) : CartRun :=
  if userId == "" then
    { effects := [Effect.header "Content-Type" "application/json",
        Effect.indentedJSON 404
          { Status := "Failed", Code := 404, Msg := Value.str "Missing userId",
            Data := Value.null },
        Effect.abort]
      exit := Exit.returned }
  else
    let usertId := (ObjectIDFromHex userId).1
    match FindOne users usertId with
    | none =>
      { effects := [Effect.logPrintln "mongo: no documents in result",
          Effect.indentedJSON 500
            { Status := "Failed", Code := 500, Msg := Value.str "User id not found",
              Data := Value.null }]
        exit := Exit.returned }
    | some filledCart =>
      let listing := groupStage (unwindStage (matchStage usertId users))
      match listing with
      | json :: _ =>
        { effects := [Effect.indentedJSON 200
            { Status := "OK", Code := 200, Msg := Value.num json.2,
              Data := Value.cart filledCart.UserCart }]
          exit := Exit.returned }
      | [] => { effects := [], exit := Exit.returned }

/-! ## Checkout -/

/-- Modelled from the spec: the User of section 3, an opaque key and the ordered
cart. -/
structure Customer where
  key : String
  cart : List ProductUser
  deriving DecidableEq, Repr

/-- Modelled from the spec: the Order of section 3. -/
structure Order where
  user : String
  items : List ProductUser
  total : Nat
  createdAt : Nat
  deriving DecidableEq, Repr

/-- Modelled from the spec: the user records and the append-only order ledger. -/
structure Store where
  customers : List Customer
  orders : List Order
  deriving DecidableEq, Repr

/-- Modelled from the spec: the conditions checkout reports (sections 6 and 7). -/
inductive CheckoutError where
  | EmptyCart
  | NotFound
  deriving DecidableEq, Repr

/-- Text of the error, as `err.Error()` gives it to the envelope. -/
def CheckoutError.Error : CheckoutError → String
  | CheckoutError.EmptyCart => "EmptyCart"
  | CheckoutError.NotFound => "NotFound"

/-- Modelled from the spec: `ComputeCartTotal` of section 4.2, the sum of the
prices of the cart lines. -/
def ComputeCartTotal (cart : List ProductUser) : Nat :=
  (cart.map (fun item => item.Price)).sum

/-- Modelled from the spec: `database.BuyItemFromCart` (package `database` is not
part of the sources) as `Checkout` of section 4.3: an empty cart fails with
`EmptyCart` and creates no order; otherwise one order with the cart lines and
their total is appended and the cart becomes empty. -/
def BuyItemFromCart (db : Store) (userKey : String) (now : Nat) :
    Option CheckoutError × Store :=
  match db.customers.find? (fun u => u.key == userKey) with
  | none => (some CheckoutError.NotFound, db)
  | some u =>
    if u.cart.isEmpty then (some CheckoutError.EmptyCart, db)
    else
      (none,
        { customers := db.customers.map
            (fun v => if v.key == userKey then { v with cart := [] } else v)
          orders := db.orders ++
            [{ user := userKey, items := u.cart, total := ComputeCartTotal u.cart,
               createdAt := now }] })

/-- What a run of `BuyFromCart` leaves behind. -/
structure BuyRun where
  effects : List Effect
  exit : Exit
  store : Store
  deriving DecidableEq, Repr

/-- Handler `BuyFromCart`, lines 188-213.  `log.Panicln` of line 193 panics, so
nothing after it runs. -/
def BuyFromCart (db : Store) (userQueryId : String) (now : Nat) : BuyRun :=
  if userQueryId == "" then
    { effects := [Effect.logPanicln "user id is empty"], exit := Exit.panicked, store := db }
  else
    match BuyItemFromCart db userQueryId now with
    | (some err, db1) =>
      { effects := [Effect.buyItemFromCart userQueryId,
          Effect.indentedJSON 500
            { Status := "Failed", Code := 500, Msg := Value.str err.Error,
              Data := Value.null }]
        exit := Exit.returned
        store := db1 }
    | (none, db1) =>
      { effects := [Effect.buyItemFromCart userQueryId,
          Effect.indentedJSON 200
            { Status := "OK", Code := 200,
              Msg := Value.str "Successfully placed the order", Data := Value.null }]
        exit := Exit.returned
        store := db1 }

/-- The bodies a list of effects posts to the gateway, in order. -/
def posts : List Effect → List (List Nat)
  | [] => []
  | Effect.httpPost _ _ body :: es => body :: posts es
  | _ :: es => posts es

/-- The documents a list of effects hands to `InsertOne`, in order. -/
def inserts : List Effect → List Payload
  | [] => []
  | Effect.insertOne doc :: es => doc :: inserts es
  | _ :: es => inserts es

/-- A payment request served by the process with machine discriminator
`machineID` at clock reading `now`: the generator of line 267 is built for this
request alone. -/
def PaymentOrdersAt (machineID now : Nat) (env : PayEnv) (ledger : List Payload) : PayRun :=
  PaymentOrders { env with nextID := freshNextID machineID now } ledger

/-! ## Auxiliary definitions of the proofs -/

/-- Value of a digit character written by `Nat.digitChar`. -/
def digitVal (c : Char) : Nat :=
  if c.toNat ≤ 57 then c.toNat - 48 else c.toNat - 87

/-- Number a list of digit characters denotes in base `b`, most significant first. -/
def ofDigitChars (b : Nat) (cs : List Char) : Nat :=
  cs.foldl (fun v c => v * b + digitVal c) 0

/-- A stand-in for the digest, used to evaluate the handlers on concrete
requests: four bytes per character of the message. -/
def stubDigest (_key msg : String) : List Nat :=
  msg.data.flatMap (fun c =>
    [c.toNat / 16777216 % 256, c.toNat / 65536 % 256, c.toNat / 256 % 256, c.toNat % 256])

/-- A request body: order id, amount and order description. -/
def sampleBody : Payload :=
  { PartnerCode := "", AccessKey := "", RequestID := "", Amount := 50000,
    OrderID := "ORD-1", OrderInfo := "two books", RedirectUrl := "", IpnUrl := "",
    ExtraData := "", RequestType := "", Signature := "" }

/-- A request in which every library call succeeds. -/
def sampleEnv : PayEnv :=
  { bindJSON := Except.ok sampleBody
    nextID := (7994, none)
    hmacSum := stubDigest
    jsonMarshal := fun p => (p.Signature.data.map Char.toNat, none)
    httpPost := fun _ _ _ => Except.ok [123, 125]
    decode := fun _ => Except.ok [("payUrl", Value.str "https://test-payment.momo.vn/pay")]
    insertOne := fun _ => none }

/-- A request body whose order id carries the text of the next delimiter. -/
def collisionBodyA : Payload :=
  { sampleBody with OrderID := "A1&orderInfo=B", OrderInfo := "C" }

/-- A request body with the same text moved into the order description. -/
def collisionBodyB : Payload :=
  { sampleBody with OrderID := "A1", OrderInfo := "B&orderInfo=C" }

/-- The ten signed fields of a payload, in signing order. -/
def signedFields (p : Payload) :
    String × Nat × String × String × String × String × String × String × String × String :=
  (p.AccessKey, p.Amount, p.ExtraData, p.IpnUrl, p.OrderID, p.OrderInfo, p.PartnerCode,
    p.RedirectUrl, p.RequestID, p.RequestType)

/-- A second request body. -/
def otherBody : Payload :=
  { sampleBody with Amount := 120000, OrderID := "ORD-2", OrderInfo := "a lamp" }

/-- A user id in the 24-character hex form. -/
def sampleUserId : String := "507f1f77bcf86cd799439011"

/-- The identifier `sampleUserId` denotes. -/
def sampleObjectID : ObjectID := [80, 127, 31, 119, 188, 248, 108, 215, 153, 67, 144, 17]

/-! ## Facts about the library functions -/

theorem digitVal_digitChar (d : Nat) (h : d < 16) : digitVal (Nat.digitChar d) = d := by
  interval_cases d <;> rfl

theorem digitChar_ne_amp (d : Nat) : Nat.digitChar d ≠ '&' := by
  by_cases h : d < 16
  · interval_cases d <;> decide
  · have hstar : Nat.digitChar d = '*' := by
      unfold Nat.digitChar
      iterate 16 (rw [if_neg (by omega)])
    rw [hstar]
    decide

theorem toDigitsCore_append (b : Nat) (fuel : Nat) :
    ∀ (n : Nat) (acc : List Char),
      Nat.toDigitsCore b fuel n acc = Nat.toDigitsCore b fuel n [] ++ acc := by
  induction fuel with
  | zero => intro n acc; simp [Nat.toDigitsCore]
  | succ f ih =>
    intro n acc
    simp only [Nat.toDigitsCore]
    split
    · simp
    · rw [ih (n / b) (Nat.digitChar (n % b) :: acc), ih (n / b) [Nat.digitChar (n % b)]]
      simp

theorem ofDigitChars_snoc (b : Nat) (cs : List Char) (c : Char) :
    ofDigitChars b (cs ++ [c]) = ofDigitChars b cs * b + digitVal c := by
  simp [ofDigitChars, List.foldl_append]

theorem ofDigitChars_toDigitsCore (b : Nat) (hb : 2 ≤ b) (hb16 : b ≤ 16) (fuel : Nat) :
    ∀ n : Nat, n < fuel → ofDigitChars b (Nat.toDigitsCore b fuel n []) = n := by
  induction fuel with
  | zero => intro n h; omega
  | succ f ih =>
    intro n h
    have hmod : n % b < 16 := lt_of_lt_of_le (Nat.mod_lt n (by omega)) hb16
    simp only [Nat.toDigitsCore]
    split
    · rename_i h0
      have hlt : n < b := (Nat.div_eq_zero_iff (by omega)).mp h0
      have hn : n < 16 := lt_of_lt_of_le hlt hb16
      simp [ofDigitChars, Nat.mod_eq_of_lt hlt, digitVal_digitChar n hn]
    · rename_i h0
      have hpos : 0 < n / b := Nat.pos_of_ne_zero h0
      have hdiv : n / b < f := by
        have h1 : n / b < n := Nat.div_lt_self (by
          rcases Nat.eq_zero_or_pos n with h2 | h2
          · subst h2; simp at h0
          · exact h2) hb
        omega
      rw [toDigitsCore_append, ofDigitChars_snoc, ih (n / b) hdiv, digitVal_digitChar _ hmod]
      exact Nat.div_add_mod' n b

theorem ofDigitChars_toDigits (b : Nat) (hb : 2 ≤ b) (hb16 : b ≤ 16) (n : Nat) :
    ofDigitChars b (Nat.toDigits b n) = n :=
  ofDigitChars_toDigitsCore b hb hb16 (n + 1) n (Nat.lt_succ_self n)

theorem FormatUint_injective (b : Nat) (hb : 2 ≤ b) (hb16 : b ≤ 16) (m n : Nat)
    (h : FormatUint m b = FormatUint n b) : m = n := by
  have h1 : Nat.toDigits b m = Nat.toDigits b n := by
    simpa [FormatUint] using congrArg String.data h
  have h2 := congrArg (ofDigitChars b) h1
  rwa [ofDigitChars_toDigits b hb hb16, ofDigitChars_toDigits b hb hb16] at h2

theorem toDigitsCore_no_amp (b : Nat) (fuel : Nat) :
    ∀ (n : Nat) (acc : List Char), '&' ∉ acc → '&' ∉ Nat.toDigitsCore b fuel n acc := by
  induction fuel with
  | zero => intro n acc h; simpa [Nat.toDigitsCore] using h
  | succ f ih =>
    intro n acc h
    have hc : '&' ∉ Nat.digitChar (n % b) :: acc := by
      intro hmem
      rcases List.mem_cons.mp hmem with h1 | h1
      · exact digitChar_ne_amp _ h1.symm
      · exact h h1
    simp only [Nat.toDigitsCore]
    split
    · exact hc
    · exact ih _ _ hc

theorem FormatUint_no_amp (n b : Nat) : '&' ∉ (FormatUint n b).data := by
  simpa [FormatUint, Nat.toDigits] using toDigitsCore_no_amp b (n + 1) n [] (by simp)

/-- Splitting at the first `&`: two texts without `&`, each followed by `&` and a
rest, are equal as wholes only when the parts are. -/
theorem split_at_amp :
    ∀ (xs ys r s : List Char), '&' ∉ xs → '&' ∉ ys →
      xs ++ '&' :: r = ys ++ '&' :: s → xs = ys ∧ r = s := by
  intro xs
  induction xs with
  | nil =>
    intro ys r s _ hy h
    cases ys with
    | nil => simpa using h
    | cons y ys =>
      simp only [List.nil_append, List.cons_append, List.cons.injEq] at h
      exact absurd (by simp [← h.1]) hy
  | cons x xs ih =>
    intro ys r s hx hy h
    cases ys with
    | nil =>
      simp only [List.nil_append, List.cons_append, List.cons.injEq] at h
      exact absurd (by simp [h.1]) hx
    | cons y ys =>
      simp only [List.cons_append, List.cons.injEq] at h
      have hx1 : '&' ∉ xs := fun hm => hx (List.mem_cons_of_mem _ hm)
      have hy1 : '&' ∉ ys := fun hm => hy (List.mem_cons_of_mem _ hm)
      obtain ⟨h1, h2⟩ := ih ys r s hx1 hy1 h.2
      exact ⟨by rw [h.1, h1], h2⟩

/-- Splitting at the last `&`: the mirror image of `split_at_amp`. -/
theorem split_at_last_amp (xs ys r s : List Char) (hx : '&' ∉ xs) (hy : '&' ∉ ys)
    (h : r ++ '&' :: xs = s ++ '&' :: ys) : r = s ∧ xs = ys := by
  have hrev := congrArg List.reverse h
  simp only [List.reverse_append, List.reverse_cons, List.append_assoc,
    List.singleton_append] at hrev
  obtain ⟨h1, h2⟩ := split_at_amp xs.reverse ys.reverse r.reverse s.reverse
    (by simpa using hx) (by simpa using hy) hrev
  exact ⟨List.reverse_injective h2, List.reverse_injective h1⟩

theorem EncodeToString_data (v : Nat) (vs : List Nat) :
    (EncodeToString (v :: vs)).data =
      Nat.digitChar (v / 16 % 16) :: Nat.digitChar (v % 16) :: (EncodeToString vs).data := by
  simp [EncodeToString]

theorem digitChar_injective (d e : Nat) (hd : d < 16) (he : e < 16)
    (h : Nat.digitChar d = Nat.digitChar e) : d = e := by
  have h1 := congrArg digitVal h
  rwa [digitVal_digitChar d hd, digitVal_digitChar e he] at h1

/-- On byte lists `hex.EncodeToString` loses nothing. -/
theorem EncodeToString_injective :
    ∀ (xs ys : List Nat), (∀ v ∈ xs, v < 256) → (∀ v ∈ ys, v < 256) →
      EncodeToString xs = EncodeToString ys → xs = ys := by
  intro xs
  induction xs with
  | nil =>
    intro ys _ _ h
    cases ys with
    | nil => rfl
    | cons y ys =>
      have h1 := congrArg String.data h
      rw [EncodeToString_data] at h1
      simp [EncodeToString] at h1
  | cons x xs ih =>
    intro ys hx hy h
    cases ys with
    | nil =>
      have h1 := congrArg String.data h
      rw [EncodeToString_data] at h1
      simp [EncodeToString] at h1
    | cons y ys =>
      have h1 := congrArg String.data h
      rw [EncodeToString_data, EncodeToString_data] at h1
      simp only [List.cons.injEq] at h1
      obtain ⟨hhi, hlo, hrest⟩ := h1
      have hxb : x < 256 := hx x (List.mem_cons_self x xs)
      have hyb : y < 256 := hy y (List.mem_cons_self y ys)
      have e1 := digitChar_injective _ _ (Nat.mod_lt _ (by decide)) (Nat.mod_lt _ (by decide)) hhi
      have e2 := digitChar_injective _ _ (Nat.mod_lt _ (by decide)) (Nat.mod_lt _ (by decide)) hlo
      have hxy : x = y := by omega
      have htl : xs = ys :=
        ih ys (fun v hv => hx v (List.mem_cons_of_mem _ hv))
          (fun v hv => hy v (List.mem_cons_of_mem _ hv)) (String.ext hrest)
      rw [hxy, htl]

/-- Every character `hex.EncodeToString` writes is a lower-case hex digit. -/
theorem EncodeToString_lowercase :
    ∀ (vs : List Nat), ∀ c ∈ (EncodeToString vs).data, c ∈ "0123456789abcdef".data := by
  intro vs
  induction vs with
  | nil => intro c hc; simp [EncodeToString] at hc
  | cons v vs ih =>
    intro c hc
    rw [EncodeToString_data] at hc
    have hex16 : ∀ d : Nat, d < 16 → Nat.digitChar d ∈ "0123456789abcdef".data := by
      intro d hd
      interval_cases d <;> decide
    rcases List.mem_cons.mp hc with h1 | h1
    · rw [h1]; exact hex16 _ (Nat.mod_lt _ (by decide))
    · rcases List.mem_cons.mp h1 with h2 | h2
      · rw [h2]; exact hex16 _ (Nat.mod_lt _ (by decide))
      · exact ih c h2

/-- The text of the signing buffer as one concatenation. -/
theorem rawSignature_String (p : Payload) :
    (rawSignature p).String =
      "accessKey=" ++ p.AccessKey ++ "&amount=" ++ FormatUint p.Amount 10 ++
      "&extraData=" ++ p.ExtraData ++ "&ipnUrl=" ++ p.IpnUrl ++
      "&orderId=" ++ p.OrderID ++ "&orderInfo=" ++ p.OrderInfo ++
      "&partnerCode=" ++ p.PartnerCode ++ "&redirectUrl=" ++ p.RedirectUrl ++
      "&requestId=" ++ p.RequestID ++ "&requestType=" ++ p.RequestType := by
  simp [rawSignature, Buffer.WriteString, Buffer.String, Buffer.empty]

theorem char_toNat_lt (c : Char) : c.toNat < 4294967296 :=
  UInt32.toNat_lt_size c.val

theorem char_toNat_injective (c d : Char) (h : c.toNat = d.toNat) : c = d := by
  rw [← Char.ofNat_toNat c, ← Char.ofNat_toNat d, h]

theorem stubDigest_bytes (key msg : String) : ∀ v ∈ stubDigest key msg, v < 256 := by
  intro v hv
  simp only [stubDigest, List.mem_flatMap] at hv
  obtain ⟨c, _, hc⟩ := hv
  simp only [List.mem_cons, List.mem_singleton, List.not_mem_nil, or_false] at hc
  rcases hc with h | h | h | h <;> omega

theorem stubDigest_data_injective :
    ∀ (xs ys : List Char),
      xs.flatMap (fun c =>
        [c.toNat / 16777216 % 256, c.toNat / 65536 % 256, c.toNat / 256 % 256, c.toNat % 256])
      = ys.flatMap (fun c =>
        [c.toNat / 16777216 % 256, c.toNat / 65536 % 256, c.toNat / 256 % 256, c.toNat % 256])
      → xs = ys := by
  intro xs
  induction xs with
  | nil =>
    intro ys h
    cases ys with
    | nil => rfl
    | cons y ys => simp at h
  | cons x xs ih =>
    intro ys h
    cases ys with
    | nil => simp at h
    | cons y ys =>
      simp only [List.flatMap_cons, List.cons_append, List.nil_append, List.cons.injEq] at h
      obtain ⟨h1, h2, h3, h4, h5⟩ := h
      have hx := char_toNat_lt x
      have hy := char_toNat_lt y
      have hxy : x = y := char_toNat_injective x y (by omega)
      rw [hxy, ih ys h5]

theorem stubDigest_injective (key m1 m2 : String)
    (h : stubDigest key m1 = stubDigest key m2) : m1 = m2 :=
  String.ext (stubDigest_data_injective m1.data m2.data h)

/-- The signing text with the amount singled out. -/
theorem rawSignature_amount_data (p : Payload) (a : Nat) :
    (rawSignature { p with Amount := a }).String.data =
      ("accessKey=" ++ p.AccessKey ++ "&amount=").data ++ ((FormatUint a 10).data ++
        ("&extraData=" ++ p.ExtraData ++ "&ipnUrl=" ++ p.IpnUrl ++
          "&orderId=" ++ p.OrderID ++ "&orderInfo=" ++ p.OrderInfo ++
          "&partnerCode=" ++ p.PartnerCode ++ "&redirectUrl=" ++ p.RedirectUrl ++
          "&requestId=" ++ p.RequestID ++ "&requestType=" ++ p.RequestType).data) := by
  simp [rawSignature_String, String.data_append, List.append_assoc]

set_option maxRecDepth 8000 in
/-- The signing text of a payload filled by `fillFields`, cut at the delimiters the
free-text fields sit between. -/
theorem rawSignature_fillFields_data (body : Payload) (requestId : String) :
    (rawSignature (fillFields body requestId)).String.data =
      "accessKey=rq9CyDN11E1Z56iT&amount=".data ++ ((FormatUint body.Amount 10).data ++
        '&' :: ("extraData=&ipnUrl=http://localhost:8000/user/view-payment&orderId=".data ++
          (body.OrderID.data ++ '&' :: ("orderInfo=".data ++
            (((body.OrderInfo.data ++
                "&partnerCode=MOMOIHKM20221002&redirectUrl=http://localhost:8000/user/view-payment".data)
              ++ '&' :: ("requestId=".data ++ requestId.data))
              ++ "&requestType=captureWallet".data))))) := by
  simp only [rawSignature_String, fillFields, String.data_append, List.append_assoc,
    List.cons_append]
  rfl

/-- Signatures differ when the signed texts do, for a digest that is injective on
messages and returns bytes. -/
theorem signature_ne_of_message_ne (hmacSum : String → String → List Nat)
    (hinj : ∀ m1 m2, hmacSum secretKey m1 = hmacSum secretKey m2 → m1 = m2)
    (hbytes : ∀ m, ∀ v ∈ hmacSum secretKey m, v < 256) (p q : Payload)
    (h : (rawSignature p).String ≠ (rawSignature q).String) :
    (signedPayload hmacSum p).Signature ≠ (signedPayload hmacSum q).Signature := by
  intro hsig
  simp only [signedPayload] at hsig
  exact h (hinj _ _ (EncodeToString_injective _ _ (hbytes _) (hbytes _) hsig))

theorem responses_append (xs ys : List Effect) :
    responses (xs ++ ys) = responses xs ++ responses ys := by
  induction xs with
  | nil => rfl
  | cons x xs ih => cases x <;> simp [responses, ih]

theorem posts_append (xs ys : List Effect) : posts (xs ++ ys) = posts xs ++ posts ys := by
  induction xs with
  | nil => rfl
  | cons x xs ih => cases x <;> simp [posts, ih]

theorem inserts_append (xs ys : List Effect) :
    inserts (xs ++ ys) = inserts xs ++ inserts ys := by
  induction xs with
  | nil => rfl
  | cons x xs ih => cases x <;> simp [inserts, ih]

/-! ## The signing path -/

/-- C1: the text `PaymentOrders` writes to the HMAC is the ten `key=value` pairs in
the order access key, amount, extra data, callback URL, order id, order
description, partner code, redirect URL, request id, request type, joined by `&`;
the signature of the payload it serializes is the lower-case hex text of the digest
of that text under the secret key. -/
theorem PaymentOrders_signs_ordered_fields (env : PayEnv) (ledger : List Payload)
    (body : Payload) (hbind : env.bindJSON = Except.ok body) :
    let p := fillFields body (FormatUint env.nextID.1 16)
    let msg := "accessKey=" ++ p.AccessKey ++ "&amount=" ++ FormatUint p.Amount 10 ++
      "&extraData=" ++ p.ExtraData ++ "&ipnUrl=" ++ p.IpnUrl ++
      "&orderId=" ++ p.OrderID ++ "&orderInfo=" ++ p.OrderInfo ++
      "&partnerCode=" ++ p.PartnerCode ++ "&redirectUrl=" ++ p.RedirectUrl ++
      "&requestId=" ++ p.RequestID ++ "&requestType=" ++ p.RequestType
    let signature := EncodeToString (env.hmacSum secretKey msg)
    (PaymentOrders env ledger).effects.take 3 =
        [Effect.hmacWrite secretKey msg, Effect.fmtPrintln ("Raw signature: " ++ msg),
         Effect.fmtPrintln ("Signature: " ++ signature)] ∧
      (∀ key m, Effect.hmacWrite key m ∈ (PaymentOrders env ledger).effects →
        key = secretKey ∧ m = msg) ∧
      Effect.httpPost endpoint "application/json"
        (env.jsonMarshal { p with Signature := signature }).1
          ∈ (PaymentOrders env ledger).effects ∧
      (∀ doc, Effect.insertOne doc ∈ (PaymentOrders env ledger).effects →
        doc = { p with Signature := signature }) ∧
      (∀ c ∈ signature.data, c ∈ "0123456789abcdef".data) := by
  intro p msg signature
  have hmsg : (rawSignature p).String = msg := rawSignature_String p
  have hsigned : signedPayload env.hmacSum p = { p with Signature := signature } := by
    simp only [signedPayload, hmsg, signature]
  refine ⟨?_, ?_, ?_, ?_, EncodeToString_lowercase _⟩
  all_goals
    unfold PaymentOrders
    simp only [hbind]
    repeat' split
  all_goals simp_all [p]

set_option maxRecDepth 8000 in
/-- Evaluation of C1 on a request with amount 50000 and generated id 7994. -/
theorem PaymentOrders_signs_ordered_fields_witness :
    sampleEnv.bindJSON = Except.ok sampleBody ∧
      Effect.hmacWrite secretKey
        "accessKey=rq9CyDN11E1Z56iT&amount=50000&extraData=&ipnUrl=http://localhost:8000/user/view-payment&orderId=ORD-1&orderInfo=two books&partnerCode=MOMOIHKM20221002&redirectUrl=http://localhost:8000/user/view-payment&requestId=1f3a&requestType=captureWallet"
        ∈ (PaymentOrders sampleEnv []).effects.take 3 := by
  refine ⟨rfl, ?_⟩
  have h := (PaymentOrders_signs_ordered_fields sampleEnv [] sampleBody rfl).1
  rw [h]
  exact List.mem_cons_self _ _

/-- C10: two payloads that differ only in the amount have different signed texts,
the decimal text `strconv.FormatUint(_, 10)` of the amount being followed by the
fixed `&extraData=`; with a digest that is injective on messages their signatures
differ too.  The amounts range over all natural numbers, the 64-bit ones among
them. -/
theorem amount_change_changes_signature (hmacSum : String → String → List Nat)
    (hinj : ∀ m1 m2, hmacSum secretKey m1 = hmacSum secretKey m2 → m1 = m2)
    (hbytes : ∀ m, ∀ v ∈ hmacSum secretKey m, v < 256)
    (p : Payload) (a b : Nat) (hab : a ≠ b) :
    (rawSignature { p with Amount := a }).String ≠
        (rawSignature { p with Amount := b }).String ∧
      (signedPayload hmacSum { p with Amount := a }).Signature ≠
        (signedPayload hmacSum { p with Amount := b }).Signature := by
  have hmsg : (rawSignature { p with Amount := a }).String ≠
      (rawSignature { p with Amount := b }).String := by
    intro h
    have hd := congrArg String.data h
    rw [rawSignature_amount_data, rawSignature_amount_data] at hd
    have h1 := List.append_cancel_right (List.append_cancel_left hd)
    exact hab (FormatUint_injective 10 (by decide) (by decide) a b (String.ext h1))
  exact ⟨hmsg, signature_ne_of_message_ne hmacSum hinj hbytes _ _ hmsg⟩

/-- Evaluation of C10 on the amounts 50000 and 50001. -/
theorem amount_change_changes_signature_witness :
    (50000 : Nat) ≠ 50001 ∧
      (rawSignature { sampleBody with Amount := 50000 }).String ≠
        (rawSignature { sampleBody with Amount := 50001 }).String ∧
      (signedPayload stubDigest { sampleBody with Amount := 50000 }).Signature ≠
        (signedPayload stubDigest { sampleBody with Amount := 50001 }).Signature :=
  ⟨by decide,
    amount_change_changes_signature stubDigest (stubDigest_injective secretKey)
      (stubDigest_bytes secretKey) sampleBody 50000 50001 (by decide)⟩

/-- The signed texts of two payloads `PaymentOrders` builds are equal only when
amount, order id, order description and request id are, provided no order id
contains `&`. -/
theorem signed_text_determines_fields (b1 b2 : Payload) (a1 a2 : Nat)
    (h1 : '&' ∉ b1.OrderID.data) (h2 : '&' ∉ b2.OrderID.data)
    (h : (rawSignature (fillFields b1 (FormatUint a1 16))).String =
      (rawSignature (fillFields b2 (FormatUint a2 16))).String) :
    b1.Amount = b2.Amount ∧ b1.OrderID = b2.OrderID ∧ b1.OrderInfo = b2.OrderInfo ∧
      a1 = a2 := by
  have hd := congrArg String.data h
  rw [rawSignature_fillFields_data, rawSignature_fillFields_data] at hd
  obtain ⟨hamt, hd1⟩ := split_at_amp _ _ _ _ (FormatUint_no_amp _ _) (FormatUint_no_amp _ _)
    (List.append_cancel_left hd)
  obtain ⟨hoid, hd2⟩ := split_at_amp _ _ _ _ h1 h2 (List.append_cancel_left hd1)
  have hrid : ∀ a : Nat, '&' ∉ "requestId=".data ++ (FormatUint a 16).data := by
    intro a hm
    rcases List.mem_append.mp hm with hm1 | hm1
    · exact absurd hm1 (by decide)
    · exact FormatUint_no_amp _ _ hm1
  obtain ⟨hinfo, hid⟩ := split_at_last_amp _ _ _ _ (hrid a1) (hrid a2)
    (List.append_cancel_right (List.append_cancel_left hd2))
  exact ⟨FormatUint_injective 10 (by decide) (by decide) _ _ (String.ext hamt),
    String.ext hoid, String.ext (List.append_cancel_right hinfo),
    FormatUint_injective 16 (by decide) (by decide) _ _
      (String.ext (List.append_cancel_left hid))⟩

set_option maxRecDepth 8000 in
/-- C2, as the code has it: the order id `A1&orderInfo=B` with description `C` and
the order id `A1` with description `B&orderInfo=C` differ in two signed fields, yet
`PaymentOrders` writes the same text to the HMAC for both and stores the same
signature, whatever the digest function. -/
theorem signed_text_collision :
    signedFields (fillFields collisionBodyA "1f3a") ≠
        signedFields (fillFields collisionBodyB "1f3a") ∧
      (rawSignature (fillFields collisionBodyA "1f3a")).String =
        (rawSignature (fillFields collisionBodyB "1f3a")).String ∧
      (∀ hmacSum : String → String → List Nat,
        (signedPayload hmacSum (fillFields collisionBodyA "1f3a")).Signature =
          (signedPayload hmacSum (fillFields collisionBodyB "1f3a")).Signature) ∧
      (PaymentOrders { sampleEnv with bindJSON := Except.ok collisionBodyA } []).effects.take 1 =
        (PaymentOrders { sampleEnv with bindJSON := Except.ok collisionBodyB } []).effects.take 1 := by
  have htext : (rawSignature (fillFields collisionBodyA "1f3a")).String =
      (rawSignature (fillFields collisionBodyB "1f3a")).String := by decide
  refine ⟨by simp [signedFields, fillFields, collisionBodyA, collisionBodyB], htext, ?_, ?_⟩
  · intro hmacSum
    simp only [signedPayload, htext]
  · simp only [PaymentOrders, List.take, List.cons_append]
    rw [show FormatUint sampleEnv.nextID.1 16 = "1f3a" from by decide, htext]

/-- C2, amended: two payloads built by `PaymentOrders` whose order ids contain no
`&` and that differ in at least one of the ten signed fields have different signed
texts; with a digest that is injective on messages their signatures differ too. -/
theorem field_change_changes_signature (hmacSum : String → String → List Nat)
    (hinj : ∀ m1 m2, hmacSum secretKey m1 = hmacSum secretKey m2 → m1 = m2)
    (hbytes : ∀ m, ∀ v ∈ hmacSum secretKey m, v < 256)
    (b1 b2 : Payload) (a1 a2 : Nat)
    (h1 : '&' ∉ b1.OrderID.data) (h2 : '&' ∉ b2.OrderID.data)
    (hdiff : signedFields (fillFields b1 (FormatUint a1 16)) ≠
      signedFields (fillFields b2 (FormatUint a2 16))) :
    (rawSignature (fillFields b1 (FormatUint a1 16))).String ≠
        (rawSignature (fillFields b2 (FormatUint a2 16))).String ∧
      (signedPayload hmacSum (fillFields b1 (FormatUint a1 16))).Signature ≠
        (signedPayload hmacSum (fillFields b2 (FormatUint a2 16))).Signature := by
  have hmsg : (rawSignature (fillFields b1 (FormatUint a1 16))).String ≠
      (rawSignature (fillFields b2 (FormatUint a2 16))).String := by
    intro h
    obtain ⟨e1, e2, e3, e4⟩ := signed_text_determines_fields b1 b2 a1 a2 h1 h2 h
    apply hdiff
    simp only [signedFields, fillFields, e1, e2, e3, e4]
  exact ⟨hmsg, signature_ne_of_message_ne hmacSum hinj hbytes _ _ hmsg⟩

/-- Evaluation of the amended C2 on two requests that differ in the free-text
order description only. -/
theorem field_change_changes_signature_witness :
    '&' ∉ sampleBody.OrderID.data ∧
      signedFields (fillFields sampleBody (FormatUint 7994 16)) ≠
        signedFields (fillFields { sampleBody with OrderInfo := "two  books" }
          (FormatUint 7994 16)) ∧
      (rawSignature (fillFields sampleBody (FormatUint 7994 16))).String ≠
        (rawSignature (fillFields { sampleBody with OrderInfo := "two  books" }
          (FormatUint 7994 16))).String ∧
      (signedPayload stubDigest (fillFields sampleBody (FormatUint 7994 16))).Signature ≠
        (signedPayload stubDigest (fillFields { sampleBody with OrderInfo := "two  books" }
          (FormatUint 7994 16))).Signature :=
  ⟨by decide, by simp [signedFields, fillFields, sampleBody],
    field_change_changes_signature stubDigest (stubDigest_injective secretKey)
      (stubDigest_bytes secretKey) sampleBody { sampleBody with OrderInfo := "two  books" }
      7994 7994 (by decide) (by decide) (by simp [signedFields, fillFields, sampleBody])⟩

/-! ## The gateway call and the ledger -/

/-- The three ways a run of `PaymentOrders` on a decoded body ends: the process
exits, the insert fails, or the payload is recorded and the OK envelope written. -/
theorem PaymentOrders_outcomes (env : PayEnv) (ledger : List Payload) (body : Payload)
    (hbind : env.bindJSON = Except.ok body) :
    ((PaymentOrders env ledger).exit = Exit.osExit 1 ∧
        responses (PaymentOrders env ledger).effects = [] ∧
        (PaymentOrders env ledger).ledger = ledger) ∨
      ((PaymentOrders env ledger).exit = Exit.returned ∧
        responses (PaymentOrders env ledger).effects =
          [(500, { Status := "Failed", Code := 500, Msg := Value.str "Not created",
                   Data := Value.null })] ∧
        (PaymentOrders env ledger).ledger = ledger) ∨
      ((PaymentOrders env ledger).exit = Exit.returned ∧
        (∃ res, responses (PaymentOrders env ledger).effects =
          [(200, { Status := "OK", Code := 200,
                   Msg := Value.str "New payload has been successfully added",
                   Data := res })]) ∧
        (PaymentOrders env ledger).ledger = ledger ++
          [signedPayload env.hmacSum (fillFields body (FormatUint env.nextID.1 16))] ∧
        inserts (PaymentOrders env ledger).effects =
          [signedPayload env.hmacSum (fillFields body (FormatUint env.nextID.1 16))] ∧
        posts (PaymentOrders env ledger).effects =
          [(env.jsonMarshal (signedPayload env.hmacSum
            (fillFields body (FormatUint env.nextID.1 16)))).1]) := by
  unfold PaymentOrders
  simp only [hbind]
  repeat' split
  all_goals
    simp [responses_append, posts_append, inserts_append, responses, posts, inserts]

/-- C3, as the code has it: when `http.Post` returns an error, or the body of the
gateway response does not decode, `PaymentOrders` ends the process through
`log.Fatalln` with exit code 1; it writes no response envelope and leaves the
ledger as it was. -/
theorem PaymentOrders_gateway_failure_exits (env : PayEnv) (ledger : List Payload)
    (body : Payload) (hbind : env.bindJSON = Except.ok body)
    (hfail :
      (∃ e, env.httpPost endpoint "application/json"
        (env.jsonMarshal (signedPayload env.hmacSum
          (fillFields body (FormatUint env.nextID.1 16)))).1 = Except.error e) ∨
      (∃ respBody e, env.httpPost endpoint "application/json"
        (env.jsonMarshal (signedPayload env.hmacSum
          (fillFields body (FormatUint env.nextID.1 16)))).1 = Except.ok respBody ∧
        env.decode respBody = Except.error e)) :
    (PaymentOrders env ledger).exit = Exit.osExit 1 ∧
      responses (PaymentOrders env ledger).effects = [] ∧
      (PaymentOrders env ledger).ledger = ledger := by
  rcases hfail with ⟨e, he⟩ | ⟨respBody, e, he, hd⟩
  · unfold PaymentOrders
    simp only [hbind, he]
    repeat' split
    all_goals simp [responses_append, responses]
  · unfold PaymentOrders
    simp only [hbind, he, hd]
    repeat' split
    all_goals simp [responses_append, responses]

/-- Evaluation of C3 on a request whose gateway call times out. -/
theorem PaymentOrders_gateway_failure_exits_witness :
    (PaymentOrders
        { sampleEnv with httpPost := fun _ _ _ => Except.error "context deadline exceeded" }
        []).exit = Exit.osExit 1 ∧
      responses (PaymentOrders
        { sampleEnv with httpPost := fun _ _ _ => Except.error "context deadline exceeded" }
        []).effects = [] ∧
      (PaymentOrders
        { sampleEnv with httpPost := fun _ _ _ => Except.error "context deadline exceeded" }
        []).ledger = [] :=
  PaymentOrders_gateway_failure_exits
    { sampleEnv with httpPost := fun _ _ _ => Except.error "context deadline exceeded" }
    [] sampleBody rfl (Or.inl ⟨"context deadline exceeded", rfl⟩)

/-- C5: whenever `PaymentOrders` writes the OK envelope, the ledger has grown by
exactly one record, the one document handed to `InsertOne`; the one body posted to
the gateway is what `json.Marshal` returned for that record; and the signature of
the record is the hex text of the digest, under the secret key, of the ordered
field text recomputed from the record. -/
theorem PaymentOrders_ok_persisted (env : PayEnv) (ledger : List Payload)
    (code : Nat) (r : Response)
    (hresp : (code, r) ∈ responses (PaymentOrders env ledger).effects)
    (hok : r.Status = "OK") :
    ∃ doc : Payload,
      (PaymentOrders env ledger).ledger = ledger ++ [doc] ∧
      inserts (PaymentOrders env ledger).effects = [doc] ∧
      posts (PaymentOrders env ledger).effects = [(env.jsonMarshal doc).1] ∧
      doc.Signature = EncodeToString (env.hmacSum secretKey
        ("accessKey=" ++ doc.AccessKey ++ "&amount=" ++ FormatUint doc.Amount 10 ++
          "&extraData=" ++ doc.ExtraData ++ "&ipnUrl=" ++ doc.IpnUrl ++
          "&orderId=" ++ doc.OrderID ++ "&orderInfo=" ++ doc.OrderInfo ++
          "&partnerCode=" ++ doc.PartnerCode ++ "&redirectUrl=" ++ doc.RedirectUrl ++
          "&requestId=" ++ doc.RequestID ++ "&requestType=" ++ doc.RequestType)) := by
  cases hb : env.bindJSON with
  | error e =>
    simp only [PaymentOrders, hb, responses, List.mem_singleton, Prod.mk.injEq] at hresp
    rw [hresp.2] at hok
    simp at hok
  | ok body =>
    rcases PaymentOrders_outcomes env ledger body hb with h | h | h
    · rw [h.2.1] at hresp
      exact absurd hresp (List.not_mem_nil _)
    · rw [h.2.1] at hresp
      simp only [List.mem_singleton, Prod.mk.injEq] at hresp
      rw [hresp.2] at hok
      simp at hok
    · obtain ⟨_, _, hledger, hins, hpost⟩ := h
      have hsig : (signedPayload env.hmacSum
          (fillFields body (FormatUint env.nextID.1 16))).Signature =
          EncodeToString (env.hmacSum secretKey
            (rawSignature (signedPayload env.hmacSum
              (fillFields body (FormatUint env.nextID.1 16)))).String) := rfl
      rw [rawSignature_String] at hsig
      exact ⟨_, hledger, hins, hpost, hsig⟩

/-- Evaluation of C5 on a request in which every library call succeeds. -/
theorem PaymentOrders_ok_persisted_witness :
    (200, { Status := "OK", Code := 200,
            Msg := Value.str "New payload has been successfully added",
            Data := Value.str "https://test-payment.momo.vn/pay" })
        ∈ responses (PaymentOrders sampleEnv []).effects ∧
      ∃ doc : Payload,
        (PaymentOrders sampleEnv []).ledger = [] ++ [doc] ∧
        inserts (PaymentOrders sampleEnv []).effects = [doc] ∧
        posts (PaymentOrders sampleEnv []).effects = [(sampleEnv.jsonMarshal doc).1] ∧
        doc.Signature = EncodeToString (sampleEnv.hmacSum secretKey
          ("accessKey=" ++ doc.AccessKey ++ "&amount=" ++ FormatUint doc.Amount 10 ++
            "&extraData=" ++ doc.ExtraData ++ "&ipnUrl=" ++ doc.IpnUrl ++
            "&orderId=" ++ doc.OrderID ++ "&orderInfo=" ++ doc.OrderInfo ++
            "&partnerCode=" ++ doc.PartnerCode ++ "&redirectUrl=" ++ doc.RedirectUrl ++
            "&requestId=" ++ doc.RequestID ++ "&requestType=" ++ doc.RequestType)) :=
  (fun hmem => ⟨hmem, PaymentOrders_ok_persisted sampleEnv [] 200 _ hmem rfl⟩)
    (by simp [PaymentOrders, sampleEnv, responses, mapIndex])

/-- The run of `PaymentOrders` when the gateway answers and the insert succeeds.
The errors of `NextID` and `json.Marshal` play no part in it. -/
theorem PaymentOrders_success_run (env : PayEnv) (ledger : List Payload)
    (body : Payload) (respBody : List Nat) (result : List (String × Value))
    (hbind : env.bindJSON = Except.ok body)
    (hpost : env.httpPost endpoint "application/json"
      (env.jsonMarshal (signedPayload env.hmacSum
        (fillFields body (FormatUint env.nextID.1 16)))).1 = Except.ok respBody)
    (hdec : env.decode respBody = Except.ok result)
    (hins : env.insertOne (signedPayload env.hmacSum
      (fillFields body (FormatUint env.nextID.1 16))) = none) :
    (PaymentOrders env ledger).exit = Exit.returned ∧
      responses (PaymentOrders env ledger).effects =
        [(200, { Status := "OK", Code := 200,
                 Msg := Value.str "New payload has been successfully added",
                 Data := mapIndex result "payUrl" })] ∧
      posts (PaymentOrders env ledger).effects =
        [(env.jsonMarshal (signedPayload env.hmacSum
          (fillFields body (FormatUint env.nextID.1 16)))).1] ∧
      inserts (PaymentOrders env ledger).effects =
        [signedPayload env.hmacSum (fillFields body (FormatUint env.nextID.1 16))] ∧
      (PaymentOrders env ledger).ledger = ledger ++
        [signedPayload env.hmacSum (fillFields body (FormatUint env.nextID.1 16))] := by
  unfold PaymentOrders
  simp only [hbind, hpost, hdec, hins]
  repeat' split
  all_goals
    simp [responses_append, posts_append, inserts_append, responses, posts, inserts]

/-- C9, as the code has it: the error of `flake.NextID()` is never read and the
error of `json.Marshal` is only logged.  When either call reports an error and the
gateway answers and the insert succeeds, `PaymentOrders` posts the body, records
the payload and writes the OK envelope. -/
theorem PaymentOrders_swallows_signing_errors (env : PayEnv) (ledger : List Payload)
    (body : Payload) (respBody : List Nat) (result : List (String × Value))
    (hbind : env.bindJSON = Except.ok body)
    (_herr : env.nextID.2 ≠ none ∨
      (env.jsonMarshal (signedPayload env.hmacSum
        (fillFields body (FormatUint env.nextID.1 16)))).2 ≠ none)
    (hpost : env.httpPost endpoint "application/json"
      (env.jsonMarshal (signedPayload env.hmacSum
        (fillFields body (FormatUint env.nextID.1 16)))).1 = Except.ok respBody)
    (hdec : env.decode respBody = Except.ok result)
    (hins : env.insertOne (signedPayload env.hmacSum
      (fillFields body (FormatUint env.nextID.1 16))) = none) :
    (PaymentOrders env ledger).exit = Exit.returned ∧
      responses (PaymentOrders env ledger).effects =
        [(200, { Status := "OK", Code := 200,
                 Msg := Value.str "New payload has been successfully added",
                 Data := mapIndex result "payUrl" })] ∧
      posts (PaymentOrders env ledger).effects =
        [(env.jsonMarshal (signedPayload env.hmacSum
          (fillFields body (FormatUint env.nextID.1 16)))).1] ∧
      (PaymentOrders env ledger).ledger = ledger ++
        [signedPayload env.hmacSum (fillFields body (FormatUint env.nextID.1 16))] := by
  obtain ⟨h1, h2, h3, _, h5⟩ :=
    PaymentOrders_success_run env ledger body respBody result hbind hpost hdec hins
  exact ⟨h1, h2, h3, h5⟩

/-- Evaluation of C9 on a request for which `NextID` reports an error and
`json.Marshal` reports an error: the request id is `0`, an empty body is posted,
and the payload is recorded under the OK envelope. -/
theorem PaymentOrders_swallows_signing_errors_witness :
    ({ sampleEnv with
        nextID := (0, some "over the time limit")
        jsonMarshal := fun _ => ([], some "json: unsupported value") } : PayEnv).nextID.2
        = some "over the time limit" ∧
      responses (PaymentOrders { sampleEnv with
        nextID := (0, some "over the time limit")
        jsonMarshal := fun _ => ([], some "json: unsupported value") } []).effects =
        [(200, { Status := "OK", Code := 200,
                 Msg := Value.str "New payload has been successfully added",
                 Data := Value.str "https://test-payment.momo.vn/pay" })] ∧
      posts (PaymentOrders { sampleEnv with
        nextID := (0, some "over the time limit")
        jsonMarshal := fun _ => ([], some "json: unsupported value") } []).effects = [[]] ∧
      (PaymentOrders { sampleEnv with
        nextID := (0, some "over the time limit")
        jsonMarshal := fun _ => ([], some "json: unsupported value") } []).ledger =
        [signedPayload stubDigest (fillFields sampleBody "0")] :=
  ⟨rfl,
    (PaymentOrders_swallows_signing_errors { sampleEnv with
        nextID := (0, some "over the time limit")
        jsonMarshal := fun _ => ([], some "json: unsupported value") } [] sampleBody
      [123, 125] [("payUrl", Value.str "https://test-payment.momo.vn/pay")]
      rfl (Or.inl (by decide)) rfl rfl rfl).2⟩

/-! ## Request ids -/

/-- Every document `PaymentOrders` hands to `InsertOne` is the signed payload of
the decoded body, with the request id the base-16 text of the generated value. -/
theorem mem_inserts_PaymentOrders (env : PayEnv) (ledger : List Payload) (doc : Payload)
    (h : doc ∈ inserts (PaymentOrders env ledger).effects) :
    doc.RequestID = FormatUint env.nextID.1 16 := by
  cases hb : env.bindJSON with
  | error e => simp [PaymentOrders, hb, inserts] at h
  | ok body =>
    have hdoc : doc = signedPayload env.hmacSum
        (fillFields body (FormatUint env.nextID.1 16)) := by
      revert h
      unfold PaymentOrders
      simp only [hb]
      repeat' split
      all_goals simp [inserts_append, inserts]
    rw [hdoc]
    rfl

/-- One generator asked twice within one time unit gives two different
identifiers: the sequence counter tells them apart. -/
theorem shared_generator_distinct (machineID now : Nat) :
    ((NewSonyflake machineID).NextID now).1.1 ≠
      ((((NewSonyflake machineID).NextID now).2).NextID now).1.1 := by
  simp only [NewSonyflake, Sonyflake.NextID, lt_irrefl, if_false, toID, BitLenSequence,
    BitLenMachineID]
  norm_num
  omega

/-- C4, as the code has it: two payment requests served by one process within the
same time unit of the generator hand `InsertOne` payloads with the same request
id, the base-16 text of the identifier a generator that has issued nothing gives
at that time. -/
theorem PaymentOrdersAt_same_time_same_requestId (machineID now : Nat)
    (env1 env2 : PayEnv) (ledger1 ledger2 : List Payload) (doc1 doc2 : Payload)
    (h1 : doc1 ∈ inserts (PaymentOrdersAt machineID now env1 ledger1).effects)
    (h2 : doc2 ∈ inserts (PaymentOrdersAt machineID now env2 ledger2).effects) :
    doc1.RequestID = doc2.RequestID ∧
      doc1.RequestID = FormatUint (toID now 0 machineID) 16 := by
  have e1 := mem_inserts_PaymentOrders _ _ _ h1
  have e2 := mem_inserts_PaymentOrders _ _ _ h2
  have hid : (freshNextID machineID now).1 = toID now 0 machineID := rfl
  simp only [hid] at e1 e2
  exact ⟨by rw [e1, e2], e1⟩

/-- Evaluation of C4 on two requests served by machine 1 at clock reading 5: both
payloads carry the request id `5000001`. -/
theorem PaymentOrdersAt_same_time_same_requestId_witness :
    signedPayload stubDigest (fillFields sampleBody "5000001")
        ∈ inserts (PaymentOrdersAt 1 5 sampleEnv []).effects ∧
      signedPayload stubDigest (fillFields otherBody "5000001")
        ∈ inserts (PaymentOrdersAt 1 5 { sampleEnv with bindJSON := Except.ok otherBody }
            [signedPayload stubDigest (fillFields sampleBody "5000001")]).effects ∧
      (signedPayload stubDigest (fillFields sampleBody "5000001")).RequestID =
        (signedPayload stubDigest (fillFields otherBody "5000001")).RequestID ∧
      (signedPayload stubDigest (fillFields sampleBody "5000001")).RequestID =
        FormatUint (toID 5 0 1) 16 := by
  have h1 : signedPayload stubDigest (fillFields sampleBody "5000001")
      ∈ inserts (PaymentOrdersAt 1 5 sampleEnv []).effects := by
    have hrun := (PaymentOrders_success_run { sampleEnv with nextID := freshNextID 1 5 } []
      sampleBody [123, 125] [("payUrl", Value.str "https://test-payment.momo.vn/pay")]
      rfl rfl rfl rfl).2.2.2.1
    unfold PaymentOrdersAt
    rw [hrun]
    exact List.mem_singleton.mpr rfl
  have h2 : signedPayload stubDigest (fillFields otherBody "5000001")
      ∈ inserts (PaymentOrdersAt 1 5 { sampleEnv with bindJSON := Except.ok otherBody }
          [signedPayload stubDigest (fillFields sampleBody "5000001")]).effects := by
    have hrun := (PaymentOrders_success_run
      { sampleEnv with bindJSON := Except.ok otherBody, nextID := freshNextID 1 5 }
      [signedPayload stubDigest (fillFields sampleBody "5000001")]
      otherBody [123, 125] [("payUrl", Value.str "https://test-payment.momo.vn/pay")]
      rfl rfl rfl rfl).2.2.2.1
    unfold PaymentOrdersAt
    rw [hrun]
    exact List.mem_singleton.mpr rfl
  exact ⟨h1, h2, PaymentOrdersAt_same_time_same_requestId 1 5 _ _ _ _ _ _ h1 h2⟩

/-! ## Checkout -/

/-- C6: for a user with a non-empty key whose cart is empty, `BuyFromCart` writes
one Failed envelope carrying the `EmptyCart` error and leaves the store, order
ledger and carts alike, as it was. -/
theorem BuyFromCart_empty_cart (db : Store) (userId : String) (now : Nat) (u : Customer)
    (hid : userId ≠ "")
    (hu : db.customers.find? (fun v => v.key == userId) = some u)
    (hempty : u.cart = []) :
    (BuyFromCart db userId now).effects =
        [Effect.buyItemFromCart userId,
         Effect.indentedJSON 500
          { Status := "Failed", Code := 500,
            Msg := Value.str CheckoutError.EmptyCart.Error, Data := Value.null }] ∧
      (BuyFromCart db userId now).exit = Exit.returned ∧
      (BuyFromCart db userId now).store.orders = db.orders ∧
      (BuyFromCart db userId now).store.customers = db.customers := by
  have hne : (userId == "") = false := by simpa using hid
  simp [BuyFromCart, BuyItemFromCart, hne, hu, hempty]

/-- Evaluation of C6 on a store whose one user has an empty cart. -/
theorem BuyFromCart_empty_cart_witness :
    sampleUserId ≠ "" ∧
      (BuyFromCart { customers := [{ key := sampleUserId, cart := [] }], orders := [] }
        sampleUserId 0).effects =
        [Effect.buyItemFromCart sampleUserId,
         Effect.indentedJSON 500
          { Status := "Failed", Code := 500, Msg := Value.str "EmptyCart",
            Data := Value.null }] ∧
      (BuyFromCart { customers := [{ key := sampleUserId, cart := [] }], orders := [] }
        sampleUserId 0).store.orders = [] :=
  have h := BuyFromCart_empty_cart
    { customers := [{ key := sampleUserId, cart := [] }], orders := [] }
    sampleUserId 0 { key := sampleUserId, cart := [] } (by decide) rfl rfl
  ⟨by decide, h.1, h.2.2.1⟩

/-! ## Cart mutation and listing -/

/-- In `AddToCart` both guards return: with an empty product id or an empty user id
the handler ends after `AbortWithError(400)` and the store is not called. -/
theorem AddToCart_empty_id_short_circuits
    (addProductToCart : ObjectID → String → Option String)
    (productQueryId userQueryId : String)
    (h : productQueryId = "" ∨ userQueryId = "") :
    (∃ msg, (AddToCart addProductToCart productQueryId userQueryId).effects =
        [Effect.logPrintln msg, Effect.abortWithError 400 msg]) ∧
      ∀ id uid, Effect.addProductToCart id uid ∉
        (AddToCart addProductToCart productQueryId userQueryId).effects := by
  by_cases hp : productQueryId = ""
  · subst hp
    simp [AddToCart]
  · have hu : userQueryId = "" := h.resolve_left hp
    subst hu
    simp [AddToCart, hp]

/-- C7, as the code has it: in `RemoveItem` the guard on the user id does not
return.  With a product id that is a valid identifier and an empty user id the
handler calls `AbortWithError(400)`, then `database.RemoveCartItem` with the empty
user id, and writes an envelope after it. -/
theorem RemoveItem_empty_userId_reaches_store
    (removeCartItem : ObjectID → String → Option String)
    (productQueryId : String) (productId : ObjectID)
    (hhex : ObjectIDFromHex productQueryId = (productId, none)) :
    (RemoveItem removeCartItem productQueryId "").effects.take 3 =
        [Effect.logPrintln "Missing user id",
         Effect.abortWithError 400 "Missing user id",
         Effect.removeCartItem productId ""] ∧
      ∃ code r, (RemoveItem removeCartItem productQueryId "").effects.drop 3 =
        [Effect.indentedJSON code r] := by
  have hne : productQueryId ≠ "" := by
    intro h
    subst h
    have h0 : (ObjectIDFromHex "").2 ≠ none := by decide
    rw [hhex] at h0
    exact h0 rfl
  have hne2 : (productQueryId == "") = false := by simpa using hne
  unfold RemoveItem
  simp only [hne2, hhex]
  cases removeCartItem productId "" <;> simp

/-- Evaluation of C7 on the product id `507f1f77bcf86cd799439011` and an empty
user id, with a store call that succeeds. -/
theorem RemoveItem_empty_userId_reaches_store_witness :
    ObjectIDFromHex sampleUserId = (sampleObjectID, none) ∧
      (RemoveItem (fun _ _ => none) sampleUserId "").effects.take 3 =
        [Effect.logPrintln "Missing user id",
         Effect.abortWithError 400 "Missing user id",
         Effect.removeCartItem sampleObjectID ""] :=
  ⟨by decide,
    (RemoveItem_empty_userId_reaches_store (fun _ _ => none) sampleUserId sampleObjectID
      (by decide)).1⟩

theorem unwindStage_of_empty_carts (users : List User)
    (h : ∀ v ∈ users, v.UserCart = []) : unwindStage users = [] := by
  induction users with
  | nil => rfl
  | cons v vs ih =>
    have hv : v.UserCart = [] := h v (List.mem_cons_self v vs)
    have hvs : unwindStage vs = [] := ih (fun w hw => h w (List.mem_cons_of_mem v hw))
    simp only [unwindStage, List.flatMap_cons, hv, List.map_nil, List.nil_append] at hvs ⊢
    exact hvs

/-- C8, as the code has it: for a stored user whose cart is empty the pipeline
`$match`, `$unwind`, `$group` yields no document, the loop of line 175 does not
run, and `GetItemsFromCart` writes no response envelope at all. -/
theorem GetItemsFromCart_empty_cart_no_response (users : List User) (userId : String)
    (u : User) (hid : userId ≠ "")
    (hu : FindOne users (ObjectIDFromHex userId).1 = some u)
    (hempty : ∀ v ∈ users, v.ID = (ObjectIDFromHex userId).1 → v.UserCart = []) :
    (GetItemsFromCart users userId).effects = [] ∧
      responses (GetItemsFromCart users userId).effects = [] := by
  have hne : (userId == "") = false := by simpa using hid
  have hlist : unwindStage (matchStage (ObjectIDFromHex userId).1 users) = [] := by
    apply unwindStage_of_empty_carts
    intro v hv
    simp only [matchStage, List.mem_filter, beq_iff_eq] at hv
    exact hempty v hv.1 hv.2
  have hrun : (GetItemsFromCart users userId).effects = [] := by
    simp [GetItemsFromCart, hne, hu, hlist, groupStage]
  exact ⟨hrun, by rw [hrun]; rfl⟩

/-- Evaluation of C8 on a collection whose one user has an empty cart. -/
theorem GetItemsFromCart_empty_cart_no_response_witness :
    sampleUserId ≠ "" ∧
      FindOne [{ ID := sampleObjectID, UserCart := [] }] (ObjectIDFromHex sampleUserId).1 =
        some { ID := sampleObjectID, UserCart := [] } ∧
      (GetItemsFromCart [{ ID := sampleObjectID, UserCart := [] }] sampleUserId).effects = [] ∧
      responses
        (GetItemsFromCart [{ ID := sampleObjectID, UserCart := [] }] sampleUserId).effects
        = [] :=
  ⟨by decide, by decide,
    GetItemsFromCart_empty_cart_no_response [{ ID := sampleObjectID, UserCart := [] }]
      sampleUserId { ID := sampleObjectID, UserCart := [] } (by decide) (by decide)
      (by intro v hv _; rw [List.mem_singleton.mp hv])⟩

/-- On a cart of two lines priced 10 and 15 the listing writes the OK envelope
with the total 25 and the lines in stored order. -/
theorem GetItemsFromCart_two_lines :
    (GetItemsFromCart
      [{ ID := sampleObjectID,
         UserCart := [{ ProductID := [1], Price := 10 }, { ProductID := [2], Price := 15 }] }]
      sampleUserId).effects =
      [Effect.indentedJSON 200
        { Status := "OK", Code := 200, Msg := Value.num 25,
          Data := Value.cart
            [{ ProductID := [1], Price := 10 }, { ProductID := [2], Price := 15 }] }] := by
  decide

end Backend
